import Mathlib

/-!
Shallow embedding of the Talkify text-to-speech client
(`src/index.ts`, class `Talkify`, and `src/talkifyError.ts`).

Modelling conventions:
* TypeScript optional fields (`field?: T`, `T | undefined`) become `Option T`.
* JavaScript truthiness tests on option fields (`options?.format && ...`)
  are embedded by `truthyStr` / `truthyInt`: `undefined` and the empty
  string / the number 0 are falsy, everything else is truthy.
* Methods that issue one HTTP request take the transport as an explicit
  function from the outgoing request value to a `TransportResult`, and
  return the list of requests actually issued together with the
  `Except`-classified outcome, so that "no request was issued" is the
  empty request list.
* JS numbers that the client only compares against integer bounds
  (rate, volume, wordBreak, pitch) are embedded as `Int`.
-/

namespace TalkifyTTS

/-- Gender union type `'Male' | 'Female'` of the voice records. -/
inductive Gender where
  | Male : Gender
  | Female : Gender
deriving DecidableEq, Repr

/-- Normalized voice record (exported type `Voice`). Field defaults are
only a convenience for building concrete literals; the TS type has no
defaults. -/
structure Voice where
  culture : String := ""
  name : String := ""
  gender : Gender := Gender.Male
  language : String := ""
  supportedFormats : List String := []
  description : String := ""
  isStandard : Bool := false
  isPremium : Bool := false
  isExclusive : Bool := false
  isNeural : Bool := false
  canUseSpeechMarks : Bool := false
  canWhisper : Bool := false
  canUseWordBreak : Bool := false
  canSpeakSoftly : Bool := false
  canUseVolume : Bool := false
  canUsePitch : Bool := false
deriving DecidableEq, Repr

/-- Provider-shaped voice record (type `VoiceResponse`), with the remote
API's capitalized field names. -/
structure VoiceResponse where
  Culture : String := ""
  Name : String := ""
  Description : String := ""
  IsStandard : Bool := false
  IsPremium : Bool := false
  IsExclusive : Bool := false
  IsNeural : Bool := false
  CanUseSpeechMarks : Bool := false
  CanWhisper : Bool := false
  CanUseWordBreak : Bool := false
  CanSpeakSoftly : Bool := false
  CanUseVolume : Bool := false
  CanUsePitch : Bool := false
  SupportsSpeechMarks : Bool := false
  Gender : Gender := Gender.Male
  StandardVoice : Bool := false
  SupportedFormats : List String := []
  Language : String := ""
deriving DecidableEq, Repr

/-- Detected-language result (exported type `Language`). -/
structure Language where
  name : String
  cultures : List String
deriving DecidableEq, Repr

/-- Provider response of the detect-language endpoint
(type `DetectLanguageResponse`). -/
structure DetectLanguageResponse where
  SpecialCharacters : List String := []
  Language : Int := 0
  Cultures : List String := []
  LanguageName : String := ""
deriving DecidableEq, Repr

/-- The caller-supplied voice selector union `Voice | string`. -/
inductive VoiceSelector where
  | obj (v : Voice) : VoiceSelector
  | str (s : String) : VoiceSelector
deriving DecidableEq, Repr

/-- Per-call option set (type `SpeechOptions = Omit<TalkifyOptions, 'key'>`).
All fields are optional in TS, hence `Option` with default `none`. -/
structure SpeechOptions where
  format : Option String := none
  fallbackLanguage : Option String := none
  voice : Option VoiceSelector := none
  rate : Option Int := none
  ssml : Option Bool := none
  whisper : Option Bool := none
  soft : Option Bool := none
  volume : Option Int := none
  wordBreak : Option Int := none
  pitch : Option Int := none
deriving DecidableEq, Repr

/-- Construction-time option set (interface `TalkifyOptions`): the
per-call fields plus the API key (`key: string | undefined`). -/
structure TalkifyOptions extends SpeechOptions where
  key : Option String := none
deriving DecidableEq, Repr

/-- Error value built by the `TalkifyError` class: the `name` tag
(`KEY_MISSING` / `VALIDATION_ERROR` / `REQUEST_ERROR`), the resolved
message, and the optional HTTP status code. The `stack` field of the TS
class is not observable in the claims and is omitted. -/
structure TalkifyError where
  name : String
  message : String
  statusCode : Option Nat := none
deriving DecidableEq, Repr

/-- JS truthiness of a `string | undefined` value: `undefined` and `""`
are falsy. -/
def truthyStr : Option String → Bool
  | none => false
  | some s => !(s == "")

/-- JS truthiness of a `number | undefined` value: `undefined` and `0`
are falsy. -/
def truthyInt : Option Int → Bool
  | none => false
  | some n => !(n == 0)

/-- The `validFormats` list of `validateOptions`. -/
def validFormats : List String := ["mp3", "wav"]

/-- Outcome of one HTTP exchange as the client observes it: either the
parsed success payload, or a failure carrying the optional
`err.response?.status` and `err.response?.statusText`. -/
inductive TransportResult (α : Type) where
  | ok (value : α) : TransportResult α
  | fail (status : Option Nat) (statusText : Option String) : TransportResult α

/-- Handle for the binary audio stream returned by the speech endpoint
(type `SpeechStream`); the client never inspects it. -/
abbrev SpeechStream := Nat

/-- Connection defaults held by the axios instance created at
construction: the fixed base URL and the persistent x-api-key header. -/
structure Connector where
  baseURL : String
  apiKeyHeader : String
deriving DecidableEq, Repr

/-- The client state: stored default options plus the connector. -/
structure Talkify where
  defaultOptions : TalkifyOptions
  connector : Connector
deriving DecidableEq, Repr

/-- `Talkify.validateOptions(options?: Partial<TalkifyOptions>)`. The
method reads only `format`, `volume`, `pitch` and `wordBreak`, so it is
typed here over the keyless `SpeechOptions`. Each guard is of the form
`options?.field && (out-of-domain test)`, so a falsy supplied value
(empty string, 0) short-circuits the check exactly as in JS. -/
def Talkify.validateOptions (options : Option SpeechOptions) : Except TalkifyError Unit :=
  if truthyStr (options.getD {}).format
      && !(validFormats.contains ((options.getD {}).format.getD "")) then
    Except.error
      { name := "VALIDATION_ERROR",
        message := "Invalid value for \x27format\x27 property. Available values: mp3,wav" }
  else if truthyInt (options.getD {}).volume
      && (((options.getD {}).volume.getD 0) < -10 || ((options.getD {}).volume.getD 0) > 10) then
    Except.error
      { name := "VALIDATION_ERROR",
        message := "Invalid range for \x27volume\x27 property. Min: -10, Max: 10." }
  else if truthyInt (options.getD {}).pitch
      && (((options.getD {}).pitch.getD 0) < -10 || ((options.getD {}).pitch.getD 0) > 10) then
    Except.error
      { name := "VALIDATION_ERROR",
        message := "Invalid range for \x27pitch\x27 property. Min: -10, Max: 10." }
  else if truthyInt (options.getD {}).wordBreak
      && (((options.getD {}).wordBreak.getD 0) < 0 || ((options.getD {}).wordBreak.getD 0) > 1000) then
    Except.error
      { name := "VALIDATION_ERROR",
        message := "Invalid range for \x27wordBreak\x27 property. Min: 0, Max: 1000." }
  else
    Except.ok ()

/-- The `Talkify` constructor. `!options?.key` rejects a missing or
empty key with `KEY_MISSING` before anything else; then the supplied
defaults are validated, stored with `format` defaulted to `mp3` and
`ssml` defaulted to `true`, and the connector is created with the fixed
base URL and the key header. A thrown error is an `Except.error`: no
client value and no connector exist in that case. -/
def Talkify.construct (options : TalkifyOptions) : Except TalkifyError Talkify :=
  if !(truthyStr options.key) then
    Except.error
      { name := "KEY_MISSING",
        message := "Talkify API-key not given. Visit https://manage.talkify.net to create your own API-key." }
  else
    match Talkify.validateOptions (some options.toSpeechOptions) with
    | Except.error e => Except.error e
    | Except.ok _ =>
      Except.ok
        { defaultOptions :=
            { options with
              key := options.key,
              format := some (options.format.getD "mp3"),
              ssml := some (options.ssml.getD true) },
          connector :=
            { baseURL := "https://talkify.net/api/",
              apiKeyHeader := options.key.getD "" } }

/-- JSON body of the POST speech/v1 request, with the remote field
names. An `Option` field valued `none` is a JS `undefined` property,
i.e. the field is not sent. -/
structure SpeechBody where
  Text : String
  Format : Option String
  FallbackLanguage : Option String
  Voice : Option String
  Rate : Option Int
  TextType : Nat
  Whisper : Option Bool
  Soft : Option Bool
  Volume : Option Int
  WordBreakMs : Option Int
  Pitch : Option Int
deriving DecidableEq, Repr

/-- Body construction inside `Talkify.speech`: every field is resolved
as `options?.field ?? this.defaultOptions.field`; the resolved voice
selector is reduced to its `name` unless it already is a string;
`TextType` is `!(options?.ssml ?? defaults.ssml) ? 0 : 1`. -/
def buildSpeechBody (defaults : TalkifyOptions) (text : String)
    (options : Option SpeechOptions) : SpeechBody :=
  let o := options.getD {}
  let selectedVoice : Option String :=
    match o.voice.orElse (fun _ => defaults.voice) with
    | some (VoiceSelector.str s) => some s
    | some (VoiceSelector.obj v) => some v.name
    | none => none
  { Text := text,
    Format := o.format.orElse (fun _ => defaults.format),
    FallbackLanguage := o.fallbackLanguage.orElse (fun _ => defaults.fallbackLanguage),
    Voice := selectedVoice,
    Rate := o.rate.orElse (fun _ => defaults.rate),
    TextType := if o.ssml.orElse (fun _ => defaults.ssml) = some true then 1 else 0,
    Whisper := o.whisper.orElse (fun _ => defaults.whisper),
    Soft := o.soft.orElse (fun _ => defaults.soft),
    Volume := o.volume.orElse (fun _ => defaults.volume),
    WordBreakMs := o.wordBreak.orElse (fun _ => defaults.wordBreak),
    Pitch := o.pitch.orElse (fun _ => defaults.pitch) }

/-- `Talkify.speech(text, options?)`: validates the overrides first
(outside the try block, so a validation error propagates as such and no
request is issued), then posts the built body; a transport failure is
wrapped as `REQUEST_ERROR` with message
`err.response?.statusText ?? 'Could not synthetize the audio'` (sic)
and the optional status code. -/
def Talkify.speech (c : Talkify) (text : String) (options : Option SpeechOptions)
    (transport : SpeechBody → TransportResult SpeechStream) :
    List SpeechBody × Except TalkifyError SpeechStream :=
  match Talkify.validateOptions options with
  | Except.error e => ([], Except.error e)
  | Except.ok _ =>
    let body := buildSpeechBody c.defaultOptions text options
    match transport body with
    | TransportResult.ok s => ([body], Except.ok s)
    | TransportResult.fail status statusText =>
      ([body],
        Except.error
          { name := "REQUEST_ERROR",
            message := statusText.getD "Could not synthetize the audio",
            statusCode := status })

/-- Normalization of one provider voice record into the exported `Voice`
shape (the push inside `availableVoices`): field names are lowered to
their camelCase counterparts and every supported-format token is
lowercased. -/
def normalizeVoice (rawVoice : VoiceResponse) : Voice :=
  { culture := rawVoice.Culture,
    name := rawVoice.Name,
    gender := rawVoice.Gender,
    language := rawVoice.Language,
    supportedFormats := rawVoice.SupportedFormats.map String.toLower,
    description := rawVoice.Description,
    isStandard := rawVoice.IsStandard,
    isPremium := rawVoice.IsPremium,
    isExclusive := rawVoice.IsExclusive,
    isNeural := rawVoice.IsNeural,
    canUseSpeechMarks := rawVoice.CanUseSpeechMarks,
    canWhisper := rawVoice.CanWhisper,
    canUseWordBreak := rawVoice.CanUseWordBreak,
    canSpeakSoftly := rawVoice.CanSpeakSoftly,
    canUseVolume := rawVoice.CanUseVolume,
    canUsePitch := rawVoice.CanUsePitch }

/-- The early-return guard of the `forEach` loop in `availableVoices`:
`if (language && rawVoice.Language.toLowerCase() !== language.toLowerCase()) return;`.
A supplied empty-string filter is falsy, so it never skips a record. -/
def skipVoice (language : Option String) (rawVoice : VoiceResponse) : Bool :=
  match language with
  | some l => !(l == "") && !(rawVoice.Language.toLower == l.toLower)
  | none => false

/-- The sanitizing `forEach` loop of `availableVoices`: records the
guard does not skip are normalized and appended in order. -/
def sanitizeVoices (language : Option String) : List VoiceResponse → List Voice
  | [] => []
  | rawVoice :: rest =>
    if skipVoice language rawVoice then sanitizeVoices language rest
    else normalizeVoice rawVoice :: sanitizeVoices language rest

/-- The GET speech/v1/voices request: the API key sent as the `key`
query parameter. -/
structure VoicesRequest where
  key : Option String
deriving DecidableEq, Repr

/-- `Talkify.availableVoices(language?)`: one GET request with the key
as query parameter; the JSON rows are sanitized (and filtered when a
truthy language is supplied); a transport failure is wrapped as
`REQUEST_ERROR` with fallback message
`'Could not fetch the voices list'`. -/
def Talkify.availableVoices (c : Talkify) (language : Option String)
    (transport : VoicesRequest → TransportResult (List VoiceResponse)) :
    List VoicesRequest × Except TalkifyError (List Voice) :=
  let req : VoicesRequest := { key := c.defaultOptions.key }
  match transport req with
  | TransportResult.ok rows => ([req], Except.ok (sanitizeVoices language rows))
  | TransportResult.fail status statusText =>
    ([req],
      Except.error
        { name := "REQUEST_ERROR",
          message := statusText.getD "Could not fetch the voices list",
          statusCode := status })

/-- The GET language/v1/detect request: the text to analyze and the API
key, both as query parameters. -/
structure DetectRequest where
  text : String
  key : Option String
deriving DecidableEq, Repr

/-- `Talkify.detectLanguage(text)`: one GET request; a response whose
`Language` code is the sentinel -1 yields `none`, any other code yields
the record `{name := LanguageName, cultures := Cultures}`; a transport
failure is wrapped as `REQUEST_ERROR` with fallback message
`'Could not fetch the language detection response'`. -/
def Talkify.detectLanguage (c : Talkify) (text : String)
    (transport : DetectRequest → TransportResult DetectLanguageResponse) :
    List DetectRequest × Except TalkifyError (Option Language) :=
  let req : DetectRequest := { text := text, key := c.defaultOptions.key }
  match transport req with
  | TransportResult.ok r =>
    ([req],
      Except.ok
        (if r.Language = -1 then none
         else some { name := r.LanguageName, cultures := r.Cultures }))
  | TransportResult.fail status statusText =>
    ([req],
      Except.error
        { name := "REQUEST_ERROR",
          message := statusText.getD "Could not fetch the language detection response",
          statusCode := status })

/-- One public method invocation with its arguments (and its transport
behaviour for that single exchange). -/
inductive Call where
  | speechCall (text : String) (options : Option SpeechOptions)
      (tr : SpeechBody → TransportResult SpeechStream) : Call
  | voicesCall (language : Option String)
      (tr : VoicesRequest → TransportResult (List VoiceResponse)) : Call
  | detectCall (text : String)
      (tr : DetectRequest → TransportResult DetectLanguageResponse) : Call

/-- Result of one method invocation. -/
inductive CallResult where
  | speechR (r : List SpeechBody × Except TalkifyError SpeechStream) : CallResult
  | voicesR (r : List VoicesRequest × Except TalkifyError (List Voice)) : CallResult
  | detectR (r : List DetectRequest × Except TalkifyError (Option Language)) : CallResult

/-- State-passing semantics of one method call on the client object.
None of the three method bodies assigns to `this.defaultOptions` or
`this.connector` (they only read them), so the post-state is the
receiver unchanged. -/
def Talkify.runCall (c : Talkify) : Call → Talkify × CallResult
  | Call.speechCall text options tr => (c, CallResult.speechR (c.speech text options tr))
  | Call.voicesCall language tr => (c, CallResult.voicesR (c.availableVoices language tr))
  | Call.detectCall text tr => (c, CallResult.detectR (c.detectLanguage text tr))

/-- Running a whole sequence of method calls from a client state. -/
def Talkify.runCalls (c : Talkify) (calls : List Call) : Talkify :=
  calls.foldl (fun s call => (s.runCall call).1) c

/-- Message carried by an error outcome, if any. -/
def errMessage {α : Type} : Except TalkifyError α → Option String
  | Except.error e => some e.message
  | Except.ok _ => none

/-- An option set with at least one supplied field outside its declared
domain, as enumerated by the spec — restricted to values the guards of
`validateOptions` actually reach (a supplied empty-string format is
falsy in JS and is never checked). -/
def invalidSpeechOption (o : SpeechOptions) : Prop :=
  (∃ v, o.volume = some v ∧ (v < -10 ∨ v > 10))
  ∨ (∃ v, o.pitch = some v ∧ (v < -10 ∨ v > 10))
  ∨ (∃ v, o.wordBreak = some v ∧ (v < 0 ∨ v > 1000))
  ∨ (∃ f, o.format = some f ∧ f ≠ "" ∧ f ∉ validFormats)

/-- A concrete client, as produced by constructing with key "k" and no
other defaults. -/
def cEx : Talkify :=
  { defaultOptions := { key := some "k", format := some "mp3", ssml := some true },
    connector := { baseURL := "https://talkify.net/api/", apiKeyHeader := "k" } }

/-- A concrete client, as produced by constructing with key "k" and
defaults format=wav, pitch=3. -/
def cWav : Talkify :=
  { defaultOptions :=
      { key := some "k", format := some "wav", ssml := some true, pitch := some 3 },
    connector := { baseURL := "https://talkify.net/api/", apiKeyHeader := "k" } }

/-- A transport that always succeeds, for witnesses where the exchange
outcome is irrelevant. -/
def okTr : SpeechBody → TransportResult SpeechStream :=
  fun _ => TransportResult.ok 0

/-- A concrete detect-language provider response with a detected
language. -/
def rFr : DetectLanguageResponse :=
  { Language := 2, LanguageName := "French", Cultures := ["fr-FR", "fr-CA"] }

/-- A concrete provider voice row. -/
def rvEx : VoiceResponse :=
  { Name := "Zira", Language := "English", SupportedFormats := ["MP3", "WAV"] }

/-- A concrete provider voice list mixing languages and casings. -/
def rowsEx : List VoiceResponse :=
  [rvEx,
   { Name := "Hedda", Language := "German", SupportedFormats := ["mp3"] },
   { Name := "David", Language := "english", SupportedFormats := ["WAV"] }]

/-- Once per-call validation has succeeded, `speech` issues exactly the
built request body, whatever the transport then does. -/
theorem speech_requests (c : Talkify) (t : String) (o : Option SpeechOptions)
    (tr : SpeechBody → TransportResult SpeechStream)
    (h : Talkify.validateOptions o = Except.ok ()) :
    (c.speech t o tr).1 = [buildSpeechBody c.defaultOptions t o] := by
  simp only [Talkify.speech, h]
  cases h2 : tr (buildSpeechBody c.defaultOptions t o) <;> simp [h2]

/-- Every error produced by `validateOptions` carries the
VALIDATION_ERROR tag. -/
theorem validateOptions_error_name (o : Option SpeechOptions) (e : TalkifyError)
    (h : Talkify.validateOptions o = Except.error e) : e.name = "VALIDATION_ERROR" := by
  unfold Talkify.validateOptions at h
  split at h
  · injection h with h2; rw [← h2]
  · split at h
    · injection h with h2; rw [← h2]
    · split at h
      · injection h with h2; rw [← h2]
      · split at h
        · injection h with h2; rw [← h2]
        · exact Except.noConfusion h

/-- `validateOptions` cannot succeed on an option set with a supplied
out-of-domain field (with a non-falsy supplied value). -/
theorem validateOptions_not_ok_of_invalid (o : SpeechOptions)
    (h : invalidSpeechOption o) :
    ∀ u, Talkify.validateOptions (some o) ≠ Except.ok u := by
  intro u hok
  unfold Talkify.validateOptions at hok
  split at hok
  · exact Except.noConfusion hok
  next hc1 =>
    split at hok
    · exact Except.noConfusion hok
    next hc2 =>
      split at hok
      · exact Except.noConfusion hok
      next hc3 =>
        split at hok
        · exact Except.noConfusion hok
        next hc4 =>
          rcases h with ⟨v, hv, hr⟩ | ⟨v, hv, hr⟩ | ⟨v, hv, hr⟩ | ⟨f, hf, hne, hmem⟩
          · apply hc2
            simp only [Option.getD_some, hv, truthyInt, Bool.and_eq_true, Bool.not_eq_true',
              beq_eq_false_iff_ne, ne_eq, Bool.or_eq_true, decide_eq_true_eq]
            omega
          · apply hc3
            simp only [Option.getD_some, hv, truthyInt, Bool.and_eq_true, Bool.not_eq_true',
              beq_eq_false_iff_ne, ne_eq, Bool.or_eq_true, decide_eq_true_eq]
            omega
          · apply hc4
            simp only [Option.getD_some, hv, truthyInt, Bool.and_eq_true, Bool.not_eq_true',
              beq_eq_false_iff_ne, ne_eq, Bool.or_eq_true, decide_eq_true_eq]
            omega
          · apply hc1
            simp only [Option.getD_some, hf]
            simp [truthyStr, hne, hmem]

/-- A validation error makes `speech` fail with that error and issue no
request. -/
theorem speech_blocked (c : Talkify) (t : String) (o : Option SpeechOptions)
    (tr : SpeechBody → TransportResult SpeechStream) (e : TalkifyError)
    (h : Talkify.validateOptions o = Except.error e) :
    c.speech t o tr = ([], Except.error e) := by
  unfold Talkify.speech
  rw [h]

/-- C1: every field of the outgoing speech body is resolved
independently as the per-call override when supplied, otherwise the
client default; consequently a client constructed with defaults
format=wav, pitch=3 calling speech with no overrides produces the same
Format and Pitch fields as a default-free client calling speech with
overrides format=wav, pitch=3. -/
theorem speech_field_resolution (c cA cB : Talkify) (t : String) (o : SpeechOptions)
    (tr trA trB : SpeechBody → TransportResult SpeechStream)
    (hok : Talkify.validateOptions (some o) = Except.ok ())
    (hA : Talkify.construct { key := some "k", format := some "wav", pitch := some 3 } =
      Except.ok cA)
    (hB : Talkify.construct { key := some "k" } = Except.ok cB) :
    ((c.speech t (some o) tr).1 =
      [{ Text := t,
         Format := o.format.orElse (fun _ => c.defaultOptions.format),
         FallbackLanguage :=
           o.fallbackLanguage.orElse (fun _ => c.defaultOptions.fallbackLanguage),
         Voice :=
           (match o.voice.orElse (fun _ => c.defaultOptions.voice) with
            | some (VoiceSelector.str s) => some s
            | some (VoiceSelector.obj v) => some v.name
            | none => none),
         Rate := o.rate.orElse (fun _ => c.defaultOptions.rate),
         TextType :=
           if o.ssml.orElse (fun _ => c.defaultOptions.ssml) = some true then 1 else 0,
         Whisper := o.whisper.orElse (fun _ => c.defaultOptions.whisper),
         Soft := o.soft.orElse (fun _ => c.defaultOptions.soft),
         Volume := o.volume.orElse (fun _ => c.defaultOptions.volume),
         WordBreakMs := o.wordBreak.orElse (fun _ => c.defaultOptions.wordBreak),
         Pitch := o.pitch.orElse (fun _ => c.defaultOptions.pitch) }])
    ∧ ((cA.speech t none trA).1.map SpeechBody.Format =
        (cB.speech t (some { format := some "wav", pitch := some 3 }) trB).1.map
          SpeechBody.Format)
    ∧ ((cA.speech t none trA).1.map SpeechBody.Pitch =
        (cB.speech t (some { format := some "wav", pitch := some 3 }) trB).1.map
          SpeechBody.Pitch) := by
  have h2 := Except.ok.inj hA
  subst h2
  have h3 := Except.ok.inj hB
  subst h3
  refine ⟨?_, ?_, ?_⟩
  · rw [speech_requests c t (some o) tr hok]
    rfl
  · rw [speech_requests _ t none trA rfl,
      speech_requests _ t (some { format := some "wav", pitch := some 3 }) trB rfl]
    rfl
  · rw [speech_requests _ t none trA rfl,
      speech_requests _ t (some { format := some "wav", pitch := some 3 }) trB rfl]
    rfl

/-- Closed instance of `speech_field_resolution` at concrete inputs:
the client of `cEx` with a pitch override, and the round-trip pair
`cWav` (defaults format=wav, pitch=3) against `cEx` (no such
defaults). -/
theorem speech_field_resolution_witness :
    ((cEx.speech "hi" (some { pitch := some 2 }) okTr).1 =
      [{ Text := "hi",
         Format := some "mp3",
         FallbackLanguage := none,
         Voice := none,
         Rate := none,
         TextType := 1,
         Whisper := none,
         Soft := none,
         Volume := none,
         WordBreakMs := none,
         Pitch := some 2 }])
    ∧ ((cWav.speech "hi" none okTr).1.map SpeechBody.Format =
        (cEx.speech "hi" (some { format := some "wav", pitch := some 3 }) okTr).1.map
          SpeechBody.Format)
    ∧ ((cWav.speech "hi" none okTr).1.map SpeechBody.Pitch =
        (cEx.speech "hi" (some { format := some "wav", pitch := some 3 }) okTr).1.map
          SpeechBody.Pitch) :=
  speech_field_resolution cEx cWav cEx "hi" { pitch := some 2 } okTr okTr okTr rfl rfl rfl

/-- C2: the outgoing TextType field is 1 when the resolved ssml flag is
true and 0 when it is false; a client constructed with an unset ssml
option has it defaulted to true, so a bare speech("hello") call sends
TextType = 1. -/
theorem speech_textType_encoding (c cD : Talkify) (t : String) (o : Option SpeechOptions)
    (tr trD : SpeechBody → TransportResult SpeechStream)
    (hok : Talkify.validateOptions o = Except.ok ())
    (hD : Talkify.construct { key := some "k" } = Except.ok cD) :
    ((o.getD {}).ssml.orElse (fun _ => c.defaultOptions.ssml) = some true →
      (c.speech t o tr).1.map SpeechBody.TextType = [1])
    ∧ ((o.getD {}).ssml.orElse (fun _ => c.defaultOptions.ssml) = some false →
      (c.speech t o tr).1.map SpeechBody.TextType = [0])
    ∧ (cD.speech "hello" none trD).1.map SpeechBody.TextType = [1] := by
  have h2 := Except.ok.inj hD
  subst h2
  refine ⟨?_, ?_, ?_⟩
  · intro h
    rw [speech_requests c t o tr hok]
    simp [buildSpeechBody, h]
  · intro h
    rw [speech_requests c t o tr hok]
    simp [buildSpeechBody, h]
  · rw [speech_requests _ "hello" none trD rfl]
    rfl

/-- Closed instance of `speech_textType_encoding`: both the
construction-default case and an explicit ssml=false override. -/
theorem speech_textType_encoding_witness :
    ((cEx.speech "hi" (some { ssml := some false }) okTr).1.map SpeechBody.TextType = [0])
    ∧ (cEx.speech "hello" none okTr).1.map SpeechBody.TextType = [1] :=
  ⟨(speech_textType_encoding cEx cEx "hi" (some { ssml := some false }) okTr okTr rfl
      rfl).2.1 rfl,
   (speech_textType_encoding cEx cEx "hi" (some { ssml := some false }) okTr okTr rfl
      rfl).2.2⟩

/-- C8: the Voice field of the outgoing request is resolved from the
override-or-default voice value: a structured Voice record sends its
name, a plain string is sent as-is, and when the value is absent in
both the override and the defaults nothing is sent. -/
theorem speech_voice_selector (d : TalkifyOptions) (t : String) (o : Option SpeechOptions)
    (v : Voice) (s : String) :
    ((o.getD {}).voice.orElse (fun _ => d.voice) = some (VoiceSelector.obj v) →
      (buildSpeechBody d t o).Voice = some v.name)
    ∧ ((o.getD {}).voice.orElse (fun _ => d.voice) = some (VoiceSelector.str s) →
      (buildSpeechBody d t o).Voice = some s)
    ∧ ((o.getD {}).voice.orElse (fun _ => d.voice) = none →
      (buildSpeechBody d t o).Voice = none) := by
  refine ⟨?_, ?_, ?_⟩ <;> intro h <;> simp [buildSpeechBody, h]

/-- Closed instance of `speech_voice_selector`: a structured default
voice record resolves to its name when the call has no override. -/
theorem speech_voice_selector_witness :
    (buildSpeechBody
      { key := some "k", voice := some (VoiceSelector.obj { name := "Zira" }) }
      "hi" none).Voice = some "Zira" :=
  (speech_voice_selector
    { key := some "k", voice := some (VoiceSelector.obj { name := "Zira" }) }
    "hi" none { name := "Zira" } "x").1 rfl

/-- With a non-empty language filter, the sanitizing loop is the stable
filter on case-insensitive language equality followed by per-record
normalization. -/
theorem sanitizeVoices_filter (l : String) (hl : l ≠ "") :
    ∀ rows : List VoiceResponse,
      sanitizeVoices (some l) rows =
        (rows.filter (fun rv => rv.Language.toLower == l.toLower)).map normalizeVoice
  | [] => rfl
  | rv :: rest => by
    have hne : (l == "") = false := by simp [hl]
    cases h2 : rv.Language.toLower == l.toLower with
    | true =>
      simp [sanitizeVoices, skipVoice, hne, h2, List.filter_cons,
        sanitizeVoices_filter l hl rest]
    | false =>
      simp [sanitizeVoices, skipVoice, hne, h2, List.filter_cons,
        sanitizeVoices_filter l hl rest]

/-- Without a language filter the sanitizing loop normalizes every
record in order. -/
theorem sanitizeVoices_none : ∀ rows : List VoiceResponse,
    sanitizeVoices none rows = rows.map normalizeVoice
  | [] => rfl
  | rv :: rest => by simp [sanitizeVoices, skipVoice, sanitizeVoices_none rest]

/-- An empty-string filter is falsy in the loop guard, so it skips
nothing. -/
theorem sanitizeVoices_empty : ∀ rows : List VoiceResponse,
    sanitizeVoices (some "") rows = sanitizeVoices none rows
  | [] => rfl
  | rv :: rest => by simp [sanitizeVoices, skipVoice, sanitizeVoices_empty rest]

/-- C3: with a supplied non-empty language filter, availableVoices
returns exactly the provider records whose Language equals the filter
case-insensitively, in the provider's order, each normalized to the
lowercase-initial Voice shape with its supportedFormats tokens
lowercased. -/
theorem availableVoices_language_filter (c : Talkify) (l : String)
    (rows : List VoiceResponse) (rv : VoiceResponse) (hl : l ≠ "") :
    ((c.availableVoices (some l) (fun _ => TransportResult.ok rows)).2 =
      Except.ok
        ((rows.filter (fun r => r.Language.toLower == l.toLower)).map normalizeVoice))
    ∧ (normalizeVoice rv).supportedFormats = rv.SupportedFormats.map String.toLower := by
  constructor
  · show Except.ok (sanitizeVoices (some l) rows) = _
    rw [sanitizeVoices_filter l hl rows]
  · rfl

/-- Closed instance of `availableVoices_language_filter` on a concrete
mixed-language, mixed-case provider list. -/
theorem availableVoices_language_filter_witness :
    ((cEx.availableVoices (some "English") (fun _ => TransportResult.ok rowsEx)).2 =
      Except.ok
        ((rowsEx.filter (fun r => r.Language.toLower == "English".toLower)).map
          normalizeVoice))
    ∧ (normalizeVoice rvEx).supportedFormats = rvEx.SupportedFormats.map String.toLower :=
  availableVoices_language_filter cEx "English" rowsEx rvEx (by decide)

/-- C4: on a successful provider response, detectLanguage returns null
exactly when the Language code is the sentinel -1, and otherwise the
record with the response's LanguageName and its Cultures list
unchanged. -/
theorem detectLanguage_sentinel (c : Talkify) (t : String) (r : DetectLanguageResponse) :
    ((c.detectLanguage t (fun _ => TransportResult.ok r)).2 = Except.ok none ↔
      r.Language = -1)
    ∧ (r.Language ≠ -1 →
      (c.detectLanguage t (fun _ => TransportResult.ok r)).2 =
        Except.ok (some { name := r.LanguageName, cultures := r.Cultures })) := by
  have hred : (c.detectLanguage t (fun _ => TransportResult.ok r)).2 =
      Except.ok (if r.Language = -1 then none
        else some { name := r.LanguageName, cultures := r.Cultures }) := rfl
  rw [hred]
  constructor
  · constructor
    · intro h
      by_contra hne
      rw [if_neg hne] at h
      exact Option.noConfusion (Except.ok.inj h)
    · intro h
      rw [if_pos h]
  · intro h
    rw [if_neg h]

/-- Closed instance of `detectLanguage_sentinel` at a concrete detected
response (French, two cultures). -/
theorem detectLanguage_sentinel_witness :
    (cEx.detectLanguage "bonjour" (fun _ => TransportResult.ok rFr)).2 =
      Except.ok (some { name := "French", cultures := ["fr-FR", "fr-CA"] }) :=
  (detectLanguage_sentinel cEx "bonjour" rFr).2 (by decide)

/-- C10: supplying the empty string as the language filter applies no
filtering at all: availableVoices behaves exactly as with no filter and
returns every normalized voice. -/
theorem empty_language_filter (c : Talkify) (rows : List VoiceResponse)
    (tr : VoicesRequest → TransportResult (List VoiceResponse)) :
    c.availableVoices (some "") tr = c.availableVoices none tr
    ∧ sanitizeVoices (some "") rows = rows.map normalizeVoice := by
  constructor
  · simp only [Talkify.availableVoices]
    cases h : tr { key := c.defaultOptions.key } with
    | ok rows2 => simp [sanitizeVoices_empty]
    | fail status statusText => rfl
  · rw [sanitizeVoices_empty rows, sanitizeVoices_none rows]

/-- C5 counterexample: on a transport failure with no status text, the
speech fallback message the code produces is "Could not synthetize the
audio" (sic), not the spec's "Could not synthesize the audio". -/
theorem speech_fallback_message_cex :
    errMessage (cEx.speech "hi" none (fun _ => TransportResult.fail (some 500) none)).2 =
      some "Could not synthetize the audio"
    ∧ "Could not synthetize the audio" ≠ "Could not synthesize the audio" :=
  ⟨rfl, by decide⟩

/-- C5 (amended): on every transport failure, each operation fails with
a REQUEST_ERROR carrying the transport's status code when exposed, and
whose message is the transport's status text when provided, otherwise
the operation-specific fallback: "Could not synthetize the audio" (as
spelled in the code) for speech, "Could not fetch the voices list" for
availableVoices, "Could not fetch the language detection response" for
detectLanguage. -/
theorem request_error_wrapping (c : Talkify) (t : String) (o : Option SpeechOptions)
    (l : Option String) (status : Option Nat) (statusText : Option String)
    (hok : Talkify.validateOptions o = Except.ok ()) :
    ((c.speech t o (fun _ => TransportResult.fail status statusText)).2 =
      Except.error
        { name := "REQUEST_ERROR",
          message := statusText.getD "Could not synthetize the audio",
          statusCode := status })
    ∧ ((c.availableVoices l (fun _ => TransportResult.fail status statusText)).2 =
      Except.error
        { name := "REQUEST_ERROR",
          message := statusText.getD "Could not fetch the voices list",
          statusCode := status })
    ∧ ((c.detectLanguage t (fun _ => TransportResult.fail status statusText)).2 =
      Except.error
        { name := "REQUEST_ERROR",
          message := statusText.getD "Could not fetch the language detection response",
          statusCode := status }) := by
  refine ⟨?_, rfl, rfl⟩
  simp only [Talkify.speech, hok]

/-- Closed instance of `request_error_wrapping`: an HTTP 500 with no
status text on each of the three operations. -/
theorem request_error_wrapping_witness :
    ((cEx.speech "hi" none (fun _ => TransportResult.fail (some 500) none)).2 =
      Except.error
        { name := "REQUEST_ERROR", message := "Could not synthetize the audio",
          statusCode := some 500 })
    ∧ ((cEx.availableVoices none (fun _ => TransportResult.fail (some 500) none)).2 =
      Except.error
        { name := "REQUEST_ERROR", message := "Could not fetch the voices list",
          statusCode := some 500 })
    ∧ ((cEx.detectLanguage "hi" (fun _ => TransportResult.fail (some 500) none)).2 =
      Except.error
        { name := "REQUEST_ERROR",
          message := "Could not fetch the language detection response",
          statusCode := some 500 }) :=
  request_error_wrapping cEx "hi" none none (some 500) none rfl

/-- C6 counterexample: a supplied empty-string format is not in
{mp3,wav}, yet validation succeeds (the JS truthiness guard
`options?.format && ...` skips the falsy empty string) and a speech
call carrying that override issues its request. -/
theorem empty_format_passes_validation_cex :
    Talkify.validateOptions (some { format := some "" }) = Except.ok ()
    ∧ ¬("" ∈ validFormats)
    ∧ (cEx.speech "hi" (some { format := some "" }) okTr).1 ≠ [] :=
  ⟨rfl, by decide, by
    rw [speech_requests cEx "hi" (some { format := some "" }) okTr rfl]
    simp⟩

/-- C6 (amended): for every option set supplying volume or pitch
outside [-10,10], or wordBreak outside [0,1000], or format as a
NON-EMPTY string not in {mp3,wav}, validation fails with
VALIDATION_ERROR before any request is issued: speech with such
overrides fails issuing no request, and construction with such defaults
(and a truthy key) fails; an option set with all fields absent passes
(only supplied fields are checked). A supplied empty-string format is
falsy in JS and escapes the check, which is the one departure from the
claim as stated. -/
theorem validation_rejects_out_of_domain (opts : TalkifyOptions) (o : SpeechOptions)
    (c : Talkify) (t : String) (tr : SpeechBody → TransportResult SpeechStream)
    (ho : invalidSpeechOption o)
    (hdef : invalidSpeechOption opts.toSpeechOptions)
    (hkey : truthyStr opts.key = true) :
    (∃ e, Talkify.validateOptions (some o) = Except.error e
      ∧ e.name = "VALIDATION_ERROR")
    ∧ (∃ e, c.speech t (some o) tr = ([], Except.error e)
      ∧ e.name = "VALIDATION_ERROR")
    ∧ (∃ e, Talkify.construct opts = Except.error e ∧ e.name = "VALIDATION_ERROR")
    ∧ Talkify.validateOptions (some {}) = Except.ok () := by
  have h1 : ∃ e, Talkify.validateOptions (some o) = Except.error e
      ∧ e.name = "VALIDATION_ERROR" := by
    cases hres : Talkify.validateOptions (some o) with
    | ok u => exact absurd hres (validateOptions_not_ok_of_invalid o ho u)
    | error e => exact ⟨e, rfl, validateOptions_error_name (some o) e hres⟩
  obtain ⟨e1, he1, hn1⟩ := h1
  have h2 : ∃ e, Talkify.validateOptions (some opts.toSpeechOptions) = Except.error e
      ∧ e.name = "VALIDATION_ERROR" := by
    cases hres : Talkify.validateOptions (some opts.toSpeechOptions) with
    | ok u => exact absurd hres (validateOptions_not_ok_of_invalid _ hdef u)
    | error e => exact ⟨e, rfl, validateOptions_error_name _ e hres⟩
  obtain ⟨e2, he2, hn2⟩ := h2
  refine ⟨⟨e1, he1, hn1⟩, ⟨e1, speech_blocked c t (some o) tr e1 he1, hn1⟩,
    ⟨e2, ?_, hn2⟩, rfl⟩
  unfold Talkify.construct
  rw [hkey, he2]
  rfl

/-- Closed instance of `validation_rejects_out_of_domain`: volume 11 as
a per-call override and pitch -11 as a construction default. -/
theorem validation_rejects_out_of_domain_witness :
    (∃ e, Talkify.validateOptions (some { volume := some 11 }) = Except.error e
      ∧ e.name = "VALIDATION_ERROR")
    ∧ (∃ e, cEx.speech "hi" (some { volume := some 11 }) okTr = ([], Except.error e)
      ∧ e.name = "VALIDATION_ERROR")
    ∧ (∃ e, Talkify.construct { key := some "k", pitch := some (-11) } = Except.error e
      ∧ e.name = "VALIDATION_ERROR")
    ∧ Talkify.validateOptions (some {}) = Except.ok () :=
  validation_rejects_out_of_domain { key := some "k", pitch := some (-11) }
    { volume := some 11 } cEx "hi" okTr
    (Or.inl ⟨11, rfl, by decide⟩)
    (Or.inr (Or.inl ⟨-11, rfl, by decide⟩))
    rfl

/-- C7: construction with an absent or empty apiKey fails with
KeyMissing and yields no client object (hence no transport); with a
non-empty key and valid defaults it succeeds. -/
theorem construct_requires_key (opts opts2 : TalkifyOptions) (k : String)
    (hbad : opts.key = none ∨ opts.key = some "")
    (h2 : opts2.key = some k) (hk : k ≠ "")
    (hval : Talkify.validateOptions (some opts2.toSpeechOptions) = Except.ok ()) :
    (∃ e, Talkify.construct opts = Except.error e ∧ e.name = "KEY_MISSING")
    ∧ (∀ cl, Talkify.construct opts ≠ Except.ok cl)
    ∧ (∃ cl, Talkify.construct opts2 = Except.ok cl) := by
  have hks : truthyStr opts.key = false := by
    rcases hbad with h | h <;> simp [truthyStr, h]
  have herr : Talkify.construct opts =
      Except.error
        { name := "KEY_MISSING",
          message := "Talkify API-key not given. Visit https://manage.talkify.net to create your own API-key." } := by
    unfold Talkify.construct
    rw [hks]
    rfl
  refine ⟨⟨_, herr, rfl⟩, ?_, ?_⟩
  · intro cl hcl
    rw [herr] at hcl
    exact Except.noConfusion hcl
  · have hks2 : truthyStr opts2.key = true := by simp [truthyStr, h2, hk]
    unfold Talkify.construct
    rw [hks2, hval]
    exact ⟨_, rfl⟩

/-- Closed instance of `construct_requires_key`: an empty key is
rejected, key "k" is accepted. -/
theorem construct_requires_key_witness :
    (∃ e, Talkify.construct { key := some "" } = Except.error e ∧ e.name = "KEY_MISSING")
    ∧ (∀ cl, Talkify.construct { key := some "" } ≠ Except.ok cl)
    ∧ (∃ cl, Talkify.construct { key := some "k" } = Except.ok cl) :=
  construct_requires_key { key := some "" } { key := some "k" } "k" (Or.inr rfl) rfl
    (by decide) rfl

/-- No method call changes the client value: the method bodies never
assign to the receiver's fields. -/
theorem runCall_preserves (c : Talkify) (call : Call) : (c.runCall call).1 = c := by
  cases call <;> rfl

/-- C9: the client's stored default options are identical before and
after each method call and across every sequence of speech,
availableVoices and detectLanguage calls with any per-call overrides:
overrides are never written back into the client state. -/
theorem defaults_immutable (c : Talkify) (calls : List Call) (call : Call) :
    (Talkify.runCalls c calls).defaultOptions = c.defaultOptions
    ∧ (c.runCall call).1.defaultOptions = c.defaultOptions := by
  constructor
  · induction calls generalizing c with
    | nil => rfl
    | cons hd tl ih =>
      show (Talkify.runCalls ((c.runCall hd).1) tl).defaultOptions = c.defaultOptions
      rw [runCall_preserves c hd]
      exact ih c
  · exact congrArg Talkify.defaultOptions (runCall_preserves c call)

end TalkifyTTS
